import Mathlib

/-!
Verification of the OpenCHAMI boot-service core against its specification.

The Go source is shallowly embedded: Go maps become association lists with
overwrite-on-insert semantics (a later insertion for the same key shadows an
earlier one, matching Go map assignment), `time.Time` becomes an integer
instant (`time.Now().After(t)` becomes strict `>`), and fallible operations
return `Option`/`Except`.  Every definition is a direct translation of the
function named in its doc comment; the two components whose implementation is
absent from the repository snapshot (the boot-script controller's request
entry point and its configuration matcher) are modelled from the
specification text and marked as such.
-/

namespace BootService

/-- ASCII lower-casing of a string (`strings.ToLower` on the identifiers in
play), written over the character list so that it evaluates by kernel
reduction. -/
def strToLower (s : String) : String := String.mk (s.data.map Char.toLower)

/-- Association-list lookup: the first binding for the key wins.  Because
`assocInsert` places new bindings at the front after erasing old ones, this
gives Go-map semantics (last assignment wins). -/
def assocFind (m : List (String × α)) (k : String) : Option α :=
  match m with
  | [] => none
  | (k', v) :: rest => if k' = k then some v else assocFind rest k

/-- Go-map assignment `m[k] = v`: any previous binding of `k` is replaced. -/
def assocInsert (m : List (String × α)) (k : String) (v : α) : List (String × α) :=
  (k, v) :: m.filter (fun p => p.1 ≠ k)

/-- Go-map `delete(m, k)`. -/
def assocErase (m : List (String × α)) (k : String) : List (String × α) :=
  m.filter (fun p => p.1 ≠ k)

theorem assocFind_insert_self (m : List (String × α)) (k : String) (v : α) :
    assocFind (assocInsert m k v) k = some v := by
  simp [assocInsert, assocFind]

theorem assocFind_filter_key_ne (m : List (String × α)) (k k' : String)
    (h : k' ≠ k) :
    assocFind (m.filter (fun p => p.1 ≠ k')) k = assocFind m k := by
  induction m with
  | nil => rfl
  | cons p rest ih =>
    by_cases hp : p.1 = k'
    · have hpk : p.1 ≠ k := fun he => h (hp ▸ he)
      simpa [assocFind, List.filter, hp, hpk, h] using ih
    · by_cases hk : p.1 = k
      · simp [assocFind, List.filter, hp, hk, h, Ne.symm h]
      · simpa [assocFind, List.filter, hp, hk, h, Ne.symm h] using ih

theorem assocFind_insert_ne (m : List (String × α)) (k k' : String) (v : α)
    (h : k' ≠ k) : assocFind (assocInsert m k' v) k = assocFind m k := by
  simp only [assocInsert, assocFind, if_neg h]
  exact assocFind_filter_key_ne m k k' h

theorem assocFind_erase_self (m : List (String × α)) (k : String) :
    assocFind (assocErase m k) k = none := by
  induction m with
  | nil => rfl
  | cons p rest ih =>
    by_cases hp : p.1 = k
    · simpa [assocErase, List.filter, hp] using ih
    · simpa [assocErase, assocFind, List.filter, hp] using ih

/-! ## Script cache (`ScriptCache` in the bootscript package) -/

/-- `CacheEntry`: a cached boot script with its generation and expiry instants
and the owning node and configuration identifiers. -/
structure CacheEntry where
  Script : String
  GeneratedAt : Int
  ExpiresAt : Int
  NodeID : String
  ConfigID : String
  deriving Repr, DecidableEq

/-- `ScriptCache`: the entry map together with the fixed TTL. -/
structure ScriptCache where
  entries : List (String × CacheEntry)
  ttl : Int
  deriving Repr, DecidableEq

/-- `NewScriptCache(ttl)` (the background cleanup goroutine is modelled
separately as `scriptCacheCleanupExpired`). -/
def newScriptCache (ttl : Int) : ScriptCache :=
  { entries := [], ttl := ttl }

/-- `ScriptCache.Get`: a present entry is returned unless
`time.Now().After(entry.ExpiresAt)` (strictly later than expiry), in which
case it is lazily deleted and reported absent. -/
def scriptCacheGet (c : ScriptCache) (cacheKey : String) (now : Int) :
    Option String × ScriptCache :=
  match assocFind c.entries cacheKey with
  | none => (none, c)
  | some entry =>
    if now > entry.ExpiresAt then
      (none, { c with entries := assocErase c.entries cacheKey })
    else
      (some entry.Script, c)

/-- `ScriptCache.Set`: stores the script with expiry `now + ttl`. -/
def scriptCacheSet (c : ScriptCache) (cacheKey script nodeID configID : String)
    (now : Int) : ScriptCache :=
  let entry : CacheEntry :=
    { Script := script, GeneratedAt := now, ExpiresAt := now + c.ttl,
      NodeID := nodeID, ConfigID := configID }
  { c with entries := assocInsert c.entries cacheKey entry }

/-- `ScriptCache.Invalidate`. -/
def scriptCacheInvalidate (c : ScriptCache) (cacheKey : String) : ScriptCache :=
  { c with entries := assocErase c.entries cacheKey }

/-- `ScriptCache.InvalidateByNodeID`: removes every entry owned by the node. -/
def scriptCacheInvalidateByNodeID (c : ScriptCache) (nodeID : String) : ScriptCache :=
  { c with entries := c.entries.filter (fun p => p.2.NodeID ≠ nodeID) }

/-- `ScriptCache.InvalidateByConfigID`. -/
def scriptCacheInvalidateByConfigID (c : ScriptCache) (configID : String) : ScriptCache :=
  { c with entries := c.entries.filter (fun p => p.2.ConfigID ≠ configID) }

/-- `CacheStats` (Go `int` fields, hence `Int`). -/
structure CacheStats where
  TotalEntries : Int
  ExpiredEntries : Int
  ValidEntries : Int
  deriving Repr, DecidableEq

/-- `ScriptCache.Stats`: counts entries, the expired ones among them, and
reports the difference as valid.  It only reads the map. -/
def scriptCacheStats (c : ScriptCache) (now : Int) : CacheStats :=
  let expired := (c.entries.filter (fun p => now > p.2.ExpiresAt)).length
  { TotalEntries := (c.entries.length : Int),
    ExpiredEntries := (expired : Int),
    ValidEntries := (c.entries.length : Int) - (expired : Int) }

/-- `ScriptCache.cleanupExpired` (one sweep of the background cleaner). -/
def scriptCacheCleanupExpired (c : ScriptCache) (now : Int) : ScriptCache :=
  { c with entries := c.entries.filter (fun p => ¬ now > p.2.ExpiresAt) }

/-- `BootScriptController.generateCacheKey`: empty configuration names fall
back to `"default"`. -/
def generateCacheKey (identifier configName : String) : String :=
  let c := if configName = "" then "default" else configName
  identifier ++ ":" ++ c

theorem assocFind_eq_none_of_keys_ne (m : List (String × α)) (k : String)
    (h : ∀ p ∈ m, p.1 ≠ k) : assocFind m k = none := by
  induction m with
  | nil => rfl
  | cons p rest ih =>
    have hp := h p (List.mem_cons_self p rest)
    simp only [assocFind, if_neg hp]
    exact ih (fun q hq => h q (List.mem_cons_of_mem p hq))

/-! ## Claim theorems about the script cache -/

/-- C3 counterexample.  The claim predicts `found = false` at any time at or
after the expiry instant `T + t`.  With TTL 10 and an entry set at time 0,
`Get` at exactly time 10 still returns the script, because the source only
treats an entry as expired when `time.Now().After(entry.ExpiresAt)` holds,
i.e. strictly after the expiry instant. -/
theorem scriptCache_get_at_expiry_counterexample :
    (scriptCacheGet
        (scriptCacheSet (newScriptCache 10) "k" "s" "node" "cfg" 0) "k" 10).1
      = some "s" ∧
    (scriptCacheGet
        (scriptCacheSet (newScriptCache 10) "k" "s" "node" "cfg" 0) "k" 10).1
      ≠ none := by
  constructor
  · rfl
  · intro h
    have h1 : (scriptCacheGet
        (scriptCacheSet (newScriptCache 10) "k" "s" "node" "cfg" 0) "k" 10).1
        = some "s" := rfl
    rw [h1] at h
    exact Option.noConfusion h

/-- C3 (amended): after `Set(k, s, …)` at time `T` with TTL `t`, `Get(k)` at
any time up to and including `T + t` returns the script, and at any time
strictly after `T + t` returns absent — an entry past its expiry is treated
as absent even if not yet physically evicted. -/
theorem scriptCache_ttl_behavior (c : ScriptCache) (k s nodeID configID : String)
    (T now : Int) :
    (now ≤ T + c.ttl →
      (scriptCacheGet (scriptCacheSet c k s nodeID configID T) k now).1 = some s) ∧
    (T + c.ttl < now →
      (scriptCacheGet (scriptCacheSet c k s nodeID configID T) k now).1 = none) := by
  constructor
  · intro h
    simp [scriptCacheGet, scriptCacheSet, assocFind_insert_self, not_lt.mpr h]
  · intro h
    simp [scriptCacheGet, scriptCacheSet, assocFind_insert_self, h]

/-- Witness for the amended C3 theorem at TTL 10, set at time 0, read at
time 10 (boundary, still served) — both hypotheses dischargeable on
concrete inputs. -/
theorem scriptCache_ttl_behavior_witness :
    (scriptCacheGet
        (scriptCacheSet (newScriptCache 10) "w" "scr" "node" "cfg" 0) "w" 10).1
      = some "scr" ∧
    (scriptCacheGet
        (scriptCacheSet (newScriptCache 10) "w" "scr" "node" "cfg" 0) "w" 11).1
      = none :=
  ⟨(scriptCache_ttl_behavior (newScriptCache 10) "w" "scr" "node" "cfg" 0 10).1
      (by decide),
   (scriptCache_ttl_behavior (newScriptCache 10) "w" "scr" "node" "cfg" 0 11).2
      (by decide)⟩

/-- C5: the cache key is `identifier ++ ":" ++ configName`, with the
configuration name replaced by `"default"` when the request carries none
(empty name); and invalidating by a node identifier removes the entry that
was just stored for that node, so the subsequent `Get` misses — at any time,
from any starting cache.  The concrete `Set("id:cfg1", …)`,
`InvalidateByNode("id")`, `Get("id:cfg1")` scenario is included. -/
theorem cacheKey_and_invalidateByNode (identifier configName : String)
    (c : ScriptCache) (k s n cfgID : String) (T now : Int) :
    generateCacheKey identifier configName
      = identifier ++ ":" ++ (if configName = "" then "default" else configName) ∧
    generateCacheKey "id" "" = "id:default" ∧
    generateCacheKey "id" "cfg1" = "id:cfg1" ∧
    (scriptCacheGet
        (scriptCacheInvalidateByNodeID (scriptCacheSet c k s n cfgID T) n)
        k now).1 = none := by
  refine ⟨rfl, rfl, rfl, ?_⟩
  have hnone :
      assocFind ((scriptCacheInvalidateByNodeID
          (scriptCacheSet c k s n cfgID T) n).entries) k = none := by
    apply assocFind_eq_none_of_keys_ne
    intro p hp
    simp only [scriptCacheInvalidateByNodeID, List.mem_filter] at hp
    rcases hp with ⟨hmem, hnode⟩
    simp only [scriptCacheSet, assocInsert, List.mem_cons, List.mem_filter] at hmem
    rcases hmem with heq | ⟨_, hkey⟩
    · exfalso
      rw [heq] at hnode
      simp at hnode
    · simpa using hkey
  simp [scriptCacheGet, hnone]

/-- C10: `Stats` reports the total number of entries, the number whose
expiry instant has passed, and their difference as valid entries; the three
counters are non-negative, valid + expired = total, and the computation
reads the cache without modifying it. -/
theorem scriptCache_stats_invariants (c : ScriptCache) (now : Int) :
    (scriptCacheStats c now).TotalEntries = (c.entries.length : Int) ∧
    (scriptCacheStats c now).ExpiredEntries
      = ((c.entries.filter (fun p => now > p.2.ExpiresAt)).length : Int) ∧
    (scriptCacheStats c now).ValidEntries
      = (scriptCacheStats c now).TotalEntries
          - (scriptCacheStats c now).ExpiredEntries ∧
    (scriptCacheStats c now).ValidEntries
        + (scriptCacheStats c now).ExpiredEntries
      = (scriptCacheStats c now).TotalEntries ∧
    0 ≤ (scriptCacheStats c now).TotalEntries ∧
    0 ≤ (scriptCacheStats c now).ExpiredEntries ∧
    0 ≤ (scriptCacheStats c now).ValidEntries := by
  have hle : (c.entries.filter (fun p => now > p.2.ExpiresAt)).length
      ≤ c.entries.length := List.length_filter_le _ _
  refine ⟨rfl, rfl, rfl, ?_, ?_, ?_, ?_⟩
  · simp [scriptCacheStats]
  · simp [scriptCacheStats]
  · simp [scriptCacheStats]
  · simp only [scriptCacheStats, sub_nonneg]
    exact_mod_cast hle

/-! ## Remote inventory provider (`HSMClient` in pkg/clients/hsm/client.go) -/

/-- `HSMComponent`: the raw component shape returned by the hardware state
manager. -/
structure HSMComponent where
  ID : String
  CompType : String
  State : String
  Enabled : Bool
  Role : String
  SubRole : String
  NID : Int
  deriving Repr, DecidableEq

/-- `HSMEthernetInterface`: a network interface record from the hardware
state manager. -/
structure HSMEthernetInterface where
  MACAddress : String
  IPAddress : String
  ComponentID : String
  IfaceType : String
  deriving Repr, DecidableEq

/-- Payload of an entry in the HSM response cache (the Go code stores
`interface{}` values: a component list under `"all_components"`, a single
component under `"component_<id>"`). -/
inductive HSMCacheData where
  | comps (cs : List HSMComponent)
  | comp (c : HSMComponent)
  deriving Repr, DecidableEq

/-- `CacheEntry` of the HSM cache: payload plus absolute expiry. -/
structure HSMCacheEntry where
  Data : HSMCacheData
  ExpiresAt : Int
  deriving Repr, DecidableEq

/-- The observable state of an `HSMClient`: its components response cache,
the configured cache expiry, and a counter of HTTP requests actually issued
(the observable the spec's scenario D counts). -/
structure HSMClientState where
  componentsCache : List (String × HSMCacheEntry)
  expiry : Int
  httpCalls : Nat
  deriving Repr, DecidableEq

/-- `NewHSMClient` with a fresh cache. -/
def newHSMClientState (expiry : Int) : HSMClientState :=
  { componentsCache := [], expiry := expiry, httpCalls := 0 }

/-- `HSMCache.Get`: absent or past-expiry entries are reported as misses
(`!exists || time.Now().After(entry.ExpiresAt)`). -/
def hsmCacheGet (m : List (String × HSMCacheEntry)) (key : String) (now : Int) :
    Option HSMCacheData :=
  match assocFind m key with
  | none => none
  | some entry => if now > entry.ExpiresAt then none else some entry.Data

/-- `HSMCache.Set`: stores the payload with expiry `now + expiry`. -/
def hsmCacheSet (m : List (String × HSMCacheEntry)) (key : String)
    (data : HSMCacheData) (now expiry : Int) : List (String × HSMCacheEntry) :=
  assocInsert m key { Data := data, ExpiresAt := now + expiry }

/-- `HSMClient.GetComponents`: a cache hit under `"all_components"`
short-circuits the HTTP call entirely; on a miss one HTTP request is issued
(`backend` stands for what the remote service answers at that moment) and a
successful response is cached.  The `comp` payload branch mirrors the Go
type assertion `data.([]HSMComponent)`, which can only be reached if a
single-component payload were stored under the list key. -/
def getComponents (st : HSMClientState) (now : Int)
    (backend : Except String (List HSMComponent)) :
    Except String (List HSMComponent) × HSMClientState :=
  match hsmCacheGet st.componentsCache "all_components" now with
  | some (HSMCacheData.comps cs) => (Except.ok cs, st)
  | some (HSMCacheData.comp _) => (Except.error "type assertion failed", st)
  | none =>
    match backend with
    | Except.error e =>
        (Except.error e, { st with httpCalls := st.httpCalls + 1 })
    | Except.ok comps =>
        (Except.ok comps,
          { st with
            httpCalls := st.httpCalls + 1,
            componentsCache := hsmCacheSet st.componentsCache "all_components"
              (HSMCacheData.comps comps) now st.expiry })

/-- C6: starting from a state whose `"all_components"` entry misses, a first
query issues one HTTP call and caches the response; a second query at any
time not past the entry's expiry returns the cached list and leaves the call
counter untouched, whatever the backend would answer; a query strictly past
the expiry issues a second HTTP call and re-caches its response. -/
theorem hsm_getComponents_cache_behavior (st : HSMClientState)
    (now1 now2 now3 : Int) (comps comps2 : List HSMComponent)
    (b2 : Except String (List HSMComponent))
    (h1 : hsmCacheGet st.componentsCache "all_components" now1 = none)
    (h2 : now2 ≤ now1 + st.expiry)
    (h3 : now1 + st.expiry < now3) :
    (getComponents st now1 (Except.ok comps)).1 = Except.ok comps ∧
    (getComponents st now1 (Except.ok comps)).2.httpCalls = st.httpCalls + 1 ∧
    getComponents (getComponents st now1 (Except.ok comps)).2 now2 b2
      = (Except.ok comps, (getComponents st now1 (Except.ok comps)).2) ∧
    (getComponents (getComponents st now1 (Except.ok comps)).2 now3
        (Except.ok comps2)).1 = Except.ok comps2 ∧
    (getComponents (getComponents st now1 (Except.ok comps)).2 now3
        (Except.ok comps2)).2.httpCalls = st.httpCalls + 2 ∧
    assocFind (getComponents (getComponents st now1 (Except.ok comps)).2 now3
        (Except.ok comps2)).2.componentsCache "all_components"
      = some { Data := HSMCacheData.comps comps2, ExpiresAt := now3 + st.expiry } := by
  have hfst : getComponents st now1 (Except.ok comps)
      = (Except.ok comps,
          { st with
            httpCalls := st.httpCalls + 1,
            componentsCache := hsmCacheSet st.componentsCache "all_components"
              (HSMCacheData.comps comps) now1 st.expiry }) := by
    rw [getComponents, h1]
  have hhit : hsmCacheGet
      (hsmCacheSet st.componentsCache "all_components"
        (HSMCacheData.comps comps) now1 st.expiry) "all_components" now2
      = some (HSMCacheData.comps comps) := by
    simp [hsmCacheGet, hsmCacheSet, assocFind_insert_self, not_lt.mpr h2]
  have hmiss : hsmCacheGet
      (hsmCacheSet st.componentsCache "all_components"
        (HSMCacheData.comps comps) now1 st.expiry) "all_components" now3
      = none := by
    simp [hsmCacheGet, hsmCacheSet, assocFind_insert_self, h3]
  refine ⟨by rw [hfst], by rw [hfst], ?_, ?_, ?_, ?_⟩
  · rw [hfst]
    simp only [getComponents, hhit]
  · rw [hfst]
    simp only [getComponents, hmiss]
  · rw [hfst]
    simp only [getComponents, hmiss]
  · rw [hfst]
    simp only [getComponents, hmiss]
    simp [hsmCacheSet, assocFind_insert_self]

/-- Witness for C6: empty cache, expiry 300; queries at times 0, 100 (hit,
even with the backend down) and 301 (expired, re-fetch). -/
theorem hsm_getComponents_cache_behavior_witness :
    (getComponents (newHSMClientState 300) 0 (Except.ok [])).1 = Except.ok [] ∧
    (getComponents (newHSMClientState 300) 0 (Except.ok [])).2.httpCalls
      = (newHSMClientState 300).httpCalls + 1 ∧
    getComponents (getComponents (newHSMClientState 300) 0 (Except.ok [])).2 100
        (Except.error "down")
      = (Except.ok [], (getComponents (newHSMClientState 300) 0 (Except.ok [])).2) ∧
    (getComponents (getComponents (newHSMClientState 300) 0 (Except.ok [])).2 301
        (Except.ok [])).1 = Except.ok [] ∧
    (getComponents (getComponents (newHSMClientState 300) 0 (Except.ok [])).2 301
        (Except.ok [])).2.httpCalls = (newHSMClientState 300).httpCalls + 2 ∧
    assocFind (getComponents (getComponents (newHSMClientState 300) 0
        (Except.ok [])).2 301 (Except.ok [])).2.componentsCache "all_components"
      = some { Data := HSMCacheData.comps [], ExpiresAt := 301 + (newHSMClientState 300).expiry } :=
  hsm_getComponents_cache_behavior (newHSMClientState 300) 0 100 301 [] []
    (Except.error "down") rfl (by decide) (by decide)

/-! ## Node resource and the HSM synchronization pass
(`IntegrationService` in the hsm package) -/

/-- `node.NodeSpec`. -/
structure NodeSpec where
  XName : String
  NID : Int
  BootMAC : String
  Role : String
  SubRole : String
  Hostname : String
  Groups : List String
  deriving Repr, DecidableEq

/-- `node.Node` (the authoritative-store resource; only the spec fields the
core reads are modelled). -/
structure Node where
  Spec : NodeSpec
  deriving Repr, DecidableEq

/-- The compute-node filter of `SyncNodesFromHSM`: keep components of type
`"Node"` whose role is `"Compute"` or `"Application"`. -/
def filterComputeNodes (components : List HSMComponent) : List HSMComponent :=
  components.filter
    (fun comp => comp.CompType == "Node"
      && (comp.Role == "Compute" || comp.Role == "Application"))

/-- The MAC lookup map of `SyncNodesFromHSM`: `macMap[iface.ComponentID] =
iface.MACAddress` for every interface of type `"Node"`, in list order (a
later interface for the same component overwrites an earlier one). -/
def buildMacMap (interfaces : List HSMEthernetInterface) : List (String × String) :=
  interfaces.foldl
    (fun m iface =>
      if iface.IfaceType == "Node" then assocInsert m iface.ComponentID iface.MACAddress
      else m) []

/-- Go map read `macMap[comp.ID]`: the zero value `""` when absent. -/
def macMapGet (m : List (String × String)) (id : String) : String :=
  (assocFind m id).getD ""

/-- The existing-node lookup map of `SyncNodesFromHSM`, keyed by `XName`. -/
def buildExistingMap (nodes : List Node) : List (String × Node) :=
  nodes.foldl (fun m n => assocInsert m n.Spec.XName n) []

/-- `IntegrationService.needsUpdate`: an existing node needs an update when
its NID, role, sub-role, or boot MAC differs from the provider component. -/
def needsUpdate (comp : HSMComponent) (macMap : List (String × String))
    (existing : Node) : Bool :=
  if comp.NID ≠ existing.Spec.NID then true
  else if comp.Role ≠ existing.Spec.Role then true
  else if comp.SubRole ≠ existing.Spec.SubRole then true
  else if macMapGet macMap comp.ID ≠ existing.Spec.BootMAC then true
  else false

/-- The write a synchronization pass performs for one kept component. -/
inductive SyncAction where
  | create
  | update
  | skip
  deriving Repr, DecidableEq

/-- The per-component decision of `syncNode`: create when no existing node
matches the component id, update when `needsUpdate`, otherwise no write. -/
def syncDecision (comp : HSMComponent) (macMap : List (String × String))
    (existingMap : List (String × Node)) : SyncAction :=
  match assocFind existingMap comp.ID with
  | none => SyncAction.create
  | some existing =>
      if needsUpdate comp macMap existing then SyncAction.update else SyncAction.skip

/-- One pass of `SyncNodesFromHSM` as the list of write decisions it makes,
one per kept component, in enumeration order. -/
def syncPlan (components : List HSMComponent)
    (interfaces : List HSMEthernetInterface) (existingNodes : List Node) :
    List (HSMComponent × SyncAction) :=
  let macMap := buildMacMap interfaces
  let existingMap := buildExistingMap existingNodes
  (filterComputeNodes components).map
    (fun comp => (comp, syncDecision comp macMap existingMap))

theorem needsUpdate_iff (comp : HSMComponent) (m : List (String × String))
    (ex : Node) :
    needsUpdate comp m ex = true ↔
      (comp.NID ≠ ex.Spec.NID ∨ comp.Role ≠ ex.Spec.Role
        ∨ comp.SubRole ≠ ex.Spec.SubRole
        ∨ macMapGet m comp.ID ≠ ex.Spec.BootMAC) := by
  unfold needsUpdate
  by_cases h1 : comp.NID = ex.Spec.NID <;>
    by_cases h2 : comp.Role = ex.Spec.Role <;>
    by_cases h3 : comp.SubRole = ex.Spec.SubRole <;>
    by_cases h4 : macMapGet m comp.ID = ex.Spec.BootMAC <;>
    simp [h1, h2, h3, h4]

theorem needsUpdate_eq_false_iff (comp : HSMComponent) (m : List (String × String))
    (ex : Node) :
    needsUpdate comp m ex = false ↔
      (comp.NID = ex.Spec.NID ∧ comp.Role = ex.Spec.Role
        ∧ comp.SubRole = ex.Spec.SubRole
        ∧ macMapGet m comp.ID = ex.Spec.BootMAC) := by
  rw [← Bool.not_eq_true, needsUpdate_iff]
  push_neg
  tauto

theorem syncDecision_cases (comp : HSMComponent) (macMap : List (String × String))
    (existingMap : List (String × Node)) :
    (syncDecision comp macMap existingMap = SyncAction.create ↔
      assocFind existingMap comp.ID = none) ∧
    (syncDecision comp macMap existingMap = SyncAction.update ↔
      ∃ ex, assocFind existingMap comp.ID = some ex
        ∧ needsUpdate comp macMap ex = true) ∧
    (syncDecision comp macMap existingMap = SyncAction.skip ↔
      ∃ ex, assocFind existingMap comp.ID = some ex
        ∧ needsUpdate comp macMap ex = false) := by
  cases hfind : assocFind existingMap comp.ID with
  | none => simp [syncDecision, hfind]
  | some ex =>
    cases hup : needsUpdate comp macMap ex with
    | true => simp [syncDecision, hfind, hup]
    | false => simp [syncDecision, hfind, hup]

/-- C7: every decision in a synchronization pass concerns a component of
type `Node` with role `Compute` or `Application` drawn from the provider
list; the pass visits exactly the kept components, once each, in order; and
the decision is `create` exactly when no existing node matches the
component's id, `update` exactly when an existing node matches but differs
in NID, role, sub-role, or boot MAC, and `skip` (no write) exactly when a
matching node agrees on all four fields. -/
theorem syncPlan_characterization (components : List HSMComponent)
    (interfaces : List HSMEthernetInterface) (existingNodes : List Node)
    (comp : HSMComponent) (act : SyncAction)
    (hmem : (comp, act) ∈ syncPlan components interfaces existingNodes) :
    (syncPlan components interfaces existingNodes).map Prod.fst
      = filterComputeNodes components ∧
    comp ∈ components ∧
    comp.CompType = "Node" ∧
    (comp.Role = "Compute" ∨ comp.Role = "Application") ∧
    (act = SyncAction.create ↔
      assocFind (buildExistingMap existingNodes) comp.ID = none) ∧
    (act = SyncAction.update ↔
      ∃ ex, assocFind (buildExistingMap existingNodes) comp.ID = some ex ∧
        (comp.NID ≠ ex.Spec.NID ∨ comp.Role ≠ ex.Spec.Role
          ∨ comp.SubRole ≠ ex.Spec.SubRole
          ∨ macMapGet (buildMacMap interfaces) comp.ID ≠ ex.Spec.BootMAC)) ∧
    (act = SyncAction.skip ↔
      ∃ ex, assocFind (buildExistingMap existingNodes) comp.ID = some ex ∧
        comp.NID = ex.Spec.NID ∧ comp.Role = ex.Spec.Role
          ∧ comp.SubRole = ex.Spec.SubRole
          ∧ macMapGet (buildMacMap interfaces) comp.ID = ex.Spec.BootMAC) := by
  have hvisits : (syncPlan components interfaces existingNodes).map Prod.fst
      = filterComputeNodes components := by
    simp only [syncPlan, List.map_map]
    have hcomp : (Prod.fst ∘ fun comp =>
        (comp, syncDecision comp (buildMacMap interfaces)
          (buildExistingMap existingNodes)))
        = fun comp : HSMComponent => comp := rfl
    rw [hcomp]
    exact List.map_id (filterComputeNodes components)
  rcases List.mem_map.mp hmem with ⟨c, hc, hceq⟩
  have hc1 : c = comp := congrArg Prod.fst hceq
  subst hc1
  have hact : act = syncDecision c (buildMacMap interfaces)
      (buildExistingMap existingNodes) := (congrArg Prod.snd hceq).symm
  have hfilt := List.mem_filter.mp hc
  have hpred := hfilt.2
  simp only [Bool.and_eq_true, Bool.or_eq_true, beq_iff_eq] at hpred
  have hcases := syncDecision_cases c (buildMacMap interfaces)
    (buildExistingMap existingNodes)
  refine ⟨hvisits, hfilt.1, hpred.1, hpred.2, ?_, ?_, ?_⟩
  · rw [hact]
    exact hcases.1
  · rw [hact, hcases.2.1]
    exact exists_congr fun ex =>
      and_congr_right fun _ => needsUpdate_iff c (buildMacMap interfaces) ex
  · rw [hact, hcases.2.2]
    exact exists_congr fun ex =>
      and_congr_right fun _ => needsUpdate_eq_false_iff c (buildMacMap interfaces) ex

/-- Witness for C7 on a concrete pass: one compute component matching an
existing node that differs in boot MAC, so the decision is `update`. -/
theorem syncPlan_characterization_witness :
    (syncPlan
        [{ ID := "x0c0s0b0n0", CompType := "Node", State := "Ready",
           Enabled := true, Role := "Compute", SubRole := "", NID := 1 }]
        [{ MACAddress := "aa:bb", IPAddress := "", ComponentID := "x0c0s0b0n0",
           IfaceType := "Node" }]
        [{ Spec := { XName := "x0c0s0b0n0", NID := 1, BootMAC := "cc:dd",
                     Role := "Compute", SubRole := "", Hostname := "",
                     Groups := [] } }]).map Prod.fst
      = filterComputeNodes
          [{ ID := "x0c0s0b0n0", CompType := "Node", State := "Ready",
             Enabled := true, Role := "Compute", SubRole := "", NID := 1 }] ∧
    ({ ID := "x0c0s0b0n0", CompType := "Node", State := "Ready",
       Enabled := true, Role := "Compute", SubRole := "", NID := 1 } : HSMComponent)
      ∈ [{ ID := "x0c0s0b0n0", CompType := "Node", State := "Ready",
           Enabled := true, Role := "Compute", SubRole := "", NID := 1 }] ∧
    ({ ID := "x0c0s0b0n0", CompType := "Node", State := "Ready",
       Enabled := true, Role := "Compute", SubRole := "", NID := 1 } : HSMComponent).CompType
      = "Node" ∧
    (({ ID := "x0c0s0b0n0", CompType := "Node", State := "Ready",
        Enabled := true, Role := "Compute", SubRole := "", NID := 1 } : HSMComponent).Role
        = "Compute" ∨
      ({ ID := "x0c0s0b0n0", CompType := "Node", State := "Ready",
         Enabled := true, Role := "Compute", SubRole := "", NID := 1 } : HSMComponent).Role
        = "Application") ∧
    (SyncAction.update = SyncAction.create ↔
      assocFind (buildExistingMap
        [{ Spec := { XName := "x0c0s0b0n0", NID := 1, BootMAC := "cc:dd",
                     Role := "Compute", SubRole := "", Hostname := "",
                     Groups := [] } }]) "x0c0s0b0n0" = none) ∧
    (SyncAction.update = SyncAction.update ↔
      ∃ ex, assocFind (buildExistingMap
          [{ Spec := { XName := "x0c0s0b0n0", NID := 1, BootMAC := "cc:dd",
                       Role := "Compute", SubRole := "", Hostname := "",
                       Groups := [] } }]) "x0c0s0b0n0" = some ex ∧
        ((1 : Int) ≠ ex.Spec.NID ∨ "Compute" ≠ ex.Spec.Role ∨ "" ≠ ex.Spec.SubRole
          ∨ macMapGet (buildMacMap
              [{ MACAddress := "aa:bb", IPAddress := "",
                 ComponentID := "x0c0s0b0n0", IfaceType := "Node" }]) "x0c0s0b0n0"
            ≠ ex.Spec.BootMAC)) ∧
    (SyncAction.update = SyncAction.skip ↔
      ∃ ex, assocFind (buildExistingMap
          [{ Spec := { XName := "x0c0s0b0n0", NID := 1, BootMAC := "cc:dd",
                       Role := "Compute", SubRole := "", Hostname := "",
                       Groups := [] } }]) "x0c0s0b0n0" = some ex ∧
        (1 : Int) = ex.Spec.NID ∧ "Compute" = ex.Spec.Role ∧ "" = ex.Spec.SubRole
          ∧ macMapGet (buildMacMap
              [{ MACAddress := "aa:bb", IPAddress := "",
                 ComponentID := "x0c0s0b0n0", IfaceType := "Node" }]) "x0c0s0b0n0"
            = ex.Spec.BootMAC) :=
  syncPlan_characterization
    [{ ID := "x0c0s0b0n0", CompType := "Node", State := "Ready",
       Enabled := true, Role := "Compute", SubRole := "", NID := 1 }]
    [{ MACAddress := "aa:bb", IPAddress := "", ComponentID := "x0c0s0b0n0",
       IfaceType := "Node" }]
    [{ Spec := { XName := "x0c0s0b0n0", NID := 1, BootMAC := "cc:dd",
                 Role := "Compute", SubRole := "", Hostname := "",
                 Groups := [] } }]
    { ID := "x0c0s0b0n0", CompType := "Node", State := "Ready",
      Enabled := true, Role := "Compute", SubRole := "", NID := 1 }
    SyncAction.update
    (by decide)

/-! ## Node identity resolution (`IntegrationService.ResolveNodeByIdentifier`) -/

/-- The remote provider as seen by one resolution request: what
`GetComponent(ctx, id)` would answer for each id (`none` on any error), and
what `GetEthernetInterfaces` would answer. -/
structure ProviderView where
  fetchComponent : String → Option HSMComponent
  interfaces : Except String (List HSMEthernetInterface)

/-- `HSMClient.GetComponentByMAC`: fetch the interfaces, take the first one
whose MAC equals the identifier exactly (case-sensitive), then fetch the
owning component; an empty owning-component id is a miss. -/
def getComponentByMAC (prov : ProviderView) (macAddress : String) :
    Except String HSMComponent :=
  match prov.interfaces with
  | Except.error e => Except.error e
  | Except.ok ifaces =>
    match ifaces.find? (fun i => i.MACAddress == macAddress) with
    | none => Except.error ("no component found for MAC address " ++ macAddress)
    | some i =>
      if i.ComponentID = "" then
        Except.error ("no component found for MAC address " ++ macAddress)
      else
        match prov.fetchComponent i.ComponentID with
        | none => Except.error ("component not found")
        | some comp => Except.ok comp

/-- `IntegrationService.convertHSMComponentToNode`: a transient node built
from the component, with the boot MAC taken from the first interface owned
by the component (empty when none). -/
def convertHSMComponentToNode (prov : ProviderView) (comp : HSMComponent) :
    Except String Node :=
  match prov.interfaces with
  | Except.error e => Except.error e
  | Except.ok ifaces =>
    let bootMAC :=
      match ifaces.find? (fun i => i.ComponentID == comp.ID) with
      | some i => i.MACAddress
      | none => ""
    Except.ok
      { Spec := { XName := comp.ID, NID := comp.NID, BootMAC := bootMAC,
                  Role := comp.Role, SubRole := comp.SubRole, Hostname := "",
                  Groups := [] } }

/-- The per-node match test of the local loop in `ResolveNodeByIdentifier`:
the node's XName, its NID rendered in decimal, or its boot MAC (exact,
case-sensitive) equals the identifier. -/
def localMatches (n : Node) (identifier : String) : Prop :=
  n.Spec.XName = identifier ∨ toString n.Spec.NID = identifier
    ∨ n.Spec.BootMAC = identifier

instance (n : Node) (identifier : String) : Decidable (localMatches n identifier) := by
  unfold localMatches
  infer_instance

/-- The local loop of `ResolveNodeByIdentifier`: walk the store's nodes in
enumeration order and return the first whose XName, decimal NID, or boot MAC
equals the identifier. -/
def findLocalNode : List Node → String → Option Node
  | [], _ => none
  | n :: rest, identifier =>
    if n.Spec.XName = identifier then some n
    else if toString n.Spec.NID = identifier then some n
    else if n.Spec.BootMAC = identifier then some n
    else findLocalNode rest identifier

/-- `IntegrationService.ResolveNodeByIdentifier`: local store first (the
loop above); on a full store miss, the provider by component id, then by MAC
address; a total miss returns a not-found error. -/
def resolveNodeByIdentifier (nodes : List Node) (prov : ProviderView)
    (identifier : String) : Except String Node :=
  match findLocalNode nodes identifier with
  | some n => Except.ok n
  | none =>
    match prov.fetchComponent identifier with
    | some comp => convertHSMComponentToNode prov comp
    | none =>
      match getComponentByMAC prov identifier with
      | Except.ok comp => convertHSMComponentToNode prov comp
      | Except.error _ =>
          Except.error ("node " ++ identifier ++ " not found in boot service or HSM")

/-- Following the spec's words (§4.1), for comparison with the source: try
the whole hardware-location namespace first, then the whole numeric-id
namespace, then the whole boot-MAC namespace (case-insensitive). -/
def specNamespaceResolve (nodes : List Node) (identifier : String) : Option Node :=
  match nodes.find? (fun n => n.Spec.XName == identifier) with
  | some n => some n
  | none =>
    match nodes.find? (fun n => toString n.Spec.NID == identifier) with
    | some n => some n
    | none =>
        nodes.find? (fun n => strToLower n.Spec.BootMAC == strToLower identifier)

theorem findLocalNode_some_elim (nodes : List Node) (identifier : String)
    (n : Node) (h : findLocalNode nodes identifier = some n) :
    localMatches n identifier ∧
    ∃ pre post, nodes = pre ++ n :: post ∧
      ∀ p ∈ pre, ¬ localMatches p identifier := by
  induction nodes with
  | nil => exact absurd h (by simp [findLocalNode])
  | cons m rest ih =>
    by_cases h1 : m.Spec.XName = identifier
    · have hm : m = n := by
        simpa [findLocalNode, h1] using h
      subst hm
      exact ⟨Or.inl h1, [], rest, rfl, by simp⟩
    · by_cases h2 : toString m.Spec.NID = identifier
      · have hm : m = n := by
          simpa [findLocalNode, h1, h2] using h
        subst hm
        exact ⟨Or.inr (Or.inl h2), [], rest, rfl, by simp⟩
      · by_cases h3 : m.Spec.BootMAC = identifier
        · have hm : m = n := by
            simpa [findLocalNode, h1, h2, h3] using h
          subst hm
          exact ⟨Or.inr (Or.inr h3), [], rest, rfl, by simp⟩
        · have hrest : findLocalNode rest identifier = some n := by
            simpa [findLocalNode, h1, h2, h3] using h
          rcases ih hrest with ⟨hmatch, pre, post, hsplit, hpre⟩
          refine ⟨hmatch, m :: pre, post, by simp [hsplit], ?_⟩
          intro p hp
          rcases List.mem_cons.mp hp with hpm | hpp
          · subst hpm
            intro hcon
            rcases hcon with hc | hc | hc
            · exact h1 hc
            · exact h2 hc
            · exact h3 hc
          · exact hpre p hpp

theorem findLocalNode_none_elim (nodes : List Node) (identifier : String)
    (h : findLocalNode nodes identifier = none) :
    ∀ n ∈ nodes, ¬ localMatches n identifier := by
  induction nodes with
  | nil => simp
  | cons m rest ih =>
    by_cases h1 : m.Spec.XName = identifier
    · exact absurd h (by simp [findLocalNode, h1])
    · by_cases h2 : toString m.Spec.NID = identifier
      · exact absurd h (by simp [findLocalNode, h1, h2])
      · by_cases h3 : m.Spec.BootMAC = identifier
        · exact absurd h (by simp [findLocalNode, h1, h2, h3])
        · have hrest : findLocalNode rest identifier = none := by
            simpa [findLocalNode, h1, h2, h3] using h
          intro n hn
          rcases List.mem_cons.mp hn with hnm | hnp
          · subst hnm
            intro hcon
            rcases hcon with hc | hc | hc
            · exact h1 hc
            · exact h2 hc
            · exact h3 hc
          · exact ih hrest n hnp

/-- C4 counterexample.  Resolution is node-major, not namespace-major: with
a store whose first node carries boot MAC `"x2"` and whose second node is
named `"x2"`, the source resolver returns the first node (a boot-MAC hit on
an earlier node), while the namespace-ordered resolver described by the
claim returns the second (the hardware-location namespace is supposed to win
over the MAC namespace).  The claimed case-insensitive MAC match also fails
locally: identifier `"AA:BB"` misses a store node whose boot MAC is
`"aa:bb"` and falls through to the provider. -/
theorem resolveNode_namespace_order_counterexample :
    resolveNodeByIdentifier
        [{ Spec := { XName := "a", NID := 1, BootMAC := "x2", Role := "",
                     SubRole := "", Hostname := "", Groups := [] } },
         { Spec := { XName := "x2", NID := 2, BootMAC := "mm", Role := "",
                     SubRole := "", Hostname := "", Groups := [] } }]
        { fetchComponent := fun _ => none, interfaces := Except.ok [] } "x2"
      = Except.ok
          { Spec := { XName := "a", NID := 1, BootMAC := "x2", Role := "",
                      SubRole := "", Hostname := "", Groups := [] } } ∧
    specNamespaceResolve
        [{ Spec := { XName := "a", NID := 1, BootMAC := "x2", Role := "",
                     SubRole := "", Hostname := "", Groups := [] } },
         { Spec := { XName := "x2", NID := 2, BootMAC := "mm", Role := "",
                     SubRole := "", Hostname := "", Groups := [] } }] "x2"
      = some
          { Spec := { XName := "x2", NID := 2, BootMAC := "mm", Role := "",
                      SubRole := "", Hostname := "", Groups := [] } } ∧
    ({ Spec := { XName := "a", NID := 1, BootMAC := "x2", Role := "",
                 SubRole := "", Hostname := "", Groups := [] } } : Node)
      ≠ { Spec := { XName := "x2", NID := 2, BootMAC := "mm", Role := "",
                    SubRole := "", Hostname := "", Groups := [] } } ∧
    resolveNodeByIdentifier
        [{ Spec := { XName := "n1", NID := 1, BootMAC := "aa:bb", Role := "",
                     SubRole := "", Hostname := "", Groups := [] } }]
        { fetchComponent := fun _ => none, interfaces := Except.ok [] } "AA:BB"
      = Except.error "node AA:BB not found in boot service or HSM" := by
  refine ⟨rfl, by decide, by decide, rfl⟩

/-- C4 (amended): resolution walks the store's nodes in enumeration order
and returns the first node whose hardware-location name, decimal numeric id,
or boot MAC (compared exactly, case-sensitively) equals the identifier —
node-major order, so an earlier node's MAC hit beats a later node's name
hit; when no store node matches, the provider is asked by component id
first and by MAC second, and a total miss yields a not-found error (no node)
rather than a store lookup failure. -/
theorem resolveNode_behavior (nodes : List Node) (prov : ProviderView)
    (identifier : String) :
    (∀ n, findLocalNode nodes identifier = some n →
      resolveNodeByIdentifier nodes prov identifier = Except.ok n ∧
      localMatches n identifier ∧
      ∃ pre post, nodes = pre ++ n :: post ∧
        ∀ p ∈ pre, ¬ localMatches p identifier) ∧
    (findLocalNode nodes identifier = none →
      (∀ n ∈ nodes, ¬ localMatches n identifier) ∧
      (∀ comp, prov.fetchComponent identifier = some comp →
        resolveNodeByIdentifier nodes prov identifier
          = convertHSMComponentToNode prov comp) ∧
      (prov.fetchComponent identifier = none →
        ∀ comp, getComponentByMAC prov identifier = Except.ok comp →
          resolveNodeByIdentifier nodes prov identifier
            = convertHSMComponentToNode prov comp) ∧
      (prov.fetchComponent identifier = none →
        ∀ e, getComponentByMAC prov identifier = Except.error e →
          resolveNodeByIdentifier nodes prov identifier
            = Except.error
                ("node " ++ identifier ++ " not found in boot service or HSM"))) := by
  constructor
  · intro n hfind
    rcases findLocalNode_some_elim nodes identifier n hfind with ⟨hmatch, hsplit⟩
    refine ⟨?_, hmatch, hsplit⟩
    simp [resolveNodeByIdentifier, hfind]
  · intro hnone
    refine ⟨findLocalNode_none_elim nodes identifier hnone, ?_, ?_, ?_⟩
    · intro comp hcomp
      simp [resolveNodeByIdentifier, hnone, hcomp]
    · intro hfetch comp hmac
      simp [resolveNodeByIdentifier, hnone, hfetch, hmac]
    · intro hfetch e hmac
      simp [resolveNodeByIdentifier, hnone, hfetch, hmac]

/-- Witness for the amended C4 theorem: a store hit by decimal NID on a
concrete two-node store, and a total miss on an empty store with an empty
provider. -/
theorem resolveNode_behavior_witness :
    (resolveNodeByIdentifier
        [{ Spec := { XName := "a", NID := 7, BootMAC := "aa", Role := "",
                     SubRole := "", Hostname := "", Groups := [] } }]
        { fetchComponent := fun _ => none, interfaces := Except.ok [] } "7"
      = Except.ok
          { Spec := { XName := "a", NID := 7, BootMAC := "aa", Role := "",
                      SubRole := "", Hostname := "", Groups := [] } } ∧
      localMatches
        { Spec := { XName := "a", NID := 7, BootMAC := "aa", Role := "",
                    SubRole := "", Hostname := "", Groups := [] } } "7" ∧
      ∃ pre post,
        [{ Spec := { XName := "a", NID := 7, BootMAC := "aa", Role := "",
                     SubRole := "", Hostname := "", Groups := [] } }]
          = pre ++
              { Spec := { XName := "a", NID := 7, BootMAC := "aa", Role := "",
                          SubRole := "", Hostname := "", Groups := [] } } :: post ∧
        ∀ p ∈ pre, ¬ localMatches p "7") ∧
    resolveNodeByIdentifier ([] : List Node)
        { fetchComponent := fun _ => none, interfaces := Except.ok [] } "z"
      = Except.error "node z not found in boot service or HSM" :=
  ⟨(resolveNode_behavior
      [{ Spec := { XName := "a", NID := 7, BootMAC := "aa", Role := "",
                   SubRole := "", Hostname := "", Groups := [] } }]
      { fetchComponent := fun _ => none, interfaces := Except.ok [] } "7").1
      _ (by decide),
   ((resolveNode_behavior ([] : List Node)
      { fetchComponent := fun _ => none, interfaces := Except.ok [] } "z").2
      rfl).2.2.2 rfl "no component found for MAC address z" rfl⟩

/-! ## Declarative-file provider (`YAMLNodeProvider` in pkg/clients/local) -/

/-- `EthernetInterface` of the YAML file. -/
structure EthernetInterface where
  MACAddress : String
  IPAddress : String
  Description : String
  deriving Repr, DecidableEq

/-- `YAMLNode`: one node record of the declarative file. -/
structure YAMLNode where
  ID : String
  XName : String
  NodeType : String
  Role : String
  SubRole : String
  State : String
  Enabled : Bool
  NID : Int
  BootMAC : String
  EthernetInterfaces : List EthernetInterface
  deriving Repr, DecidableEq

/-- The index keys one node contributes in `loadNodes`, in insertion order:
its id, its XName, its lower-cased boot MAC, each lower-cased interface MAC,
and its NID in decimal when positive — empty fields contribute nothing. -/
def yamlKeys (n : YAMLNode) : List String :=
  (if n.ID ≠ "" then [n.ID] else []) ++
  (if n.XName ≠ "" then [n.XName] else []) ++
  (if n.BootMAC ≠ "" then [strToLower n.BootMAC] else []) ++
  (n.EthernetInterfaces.filterMap
    (fun i => if i.MACAddress ≠ "" then some (strToLower i.MACAddress) else none)) ++
  (if 0 < n.NID then [toString n.NID] else [])

/-- One node's insertions into the index (`p.nodes[...] = node` for each of
its keys); a later insertion for an already-present key overwrites. -/
def insertYamlNode (m : List (String × YAMLNode)) (n : YAMLNode) :
    List (String × YAMLNode) :=
  (yamlKeys n).foldl (fun acc k => assocInsert acc k n) m

/-- The full index built by `loadNodes` from the parsed node list, in file
order (a later node's key overwrites an earlier node's same key, as with the
Go map). -/
def buildIndex (ns : List YAMLNode) : List (String × YAMLNode) :=
  ns.foldl insertYamlNode []

/-- The in-memory state of a `YAMLNodeProvider`. -/
structure YAMLProviderState where
  index : List (String × YAMLNode)
  autoReload : Bool
  deriving Repr, DecidableEq

/-- `YAMLNodeProvider.loadNodes`: reading and parsing the file is modelled
as its outcome `file`; on failure the provider state is returned unchanged
(the source returns before touching `p.nodes`), on success the index is
rebuilt. -/
def loadNodes (st : YAMLProviderState) (file : Except String (List YAMLNode)) :
    Option String × YAMLProviderState :=
  match file with
  | Except.error e => (some e, st)
  | Except.ok ns => (none, { st with index := buildIndex ns })

/-- The lookup of `GetNodeByIdentifier`: direct, then lower-cased. -/
def lookupIdentifier (index : List (String × YAMLNode)) (identifier : String) :
    Option YAMLNode :=
  match assocFind index identifier with
  | some n => some n
  | none => assocFind index (strToLower identifier)

/-- `YAMLNodeProvider.GetNodeByIdentifier`: when auto-reload is enabled the
file is re-parsed first — a failed re-parse only logs a warning and the
lookup proceeds on the retained index. -/
def getNodeByIdentifier (st : YAMLProviderState)
    (file : Except String (List YAMLNode)) (identifier : String) :
    Option YAMLNode × YAMLProviderState :=
  if st.autoReload then
    let st' := (loadNodes st file).2
    (lookupIdentifier st'.index identifier, st')
  else
    (lookupIdentifier st.index identifier, st)

theorem assocFind_foldl_insert (ks : List String) (m : List (String × YAMLNode))
    (n : YAMLNode) (k : String) :
    assocFind (ks.foldl (fun acc k' => assocInsert acc k' n) m) k
      = if k ∈ ks then some n else assocFind m k := by
  induction ks generalizing m with
  | nil => simp
  | cons k' ks ih =>
    rw [List.foldl_cons, ih]
    by_cases hks : k ∈ ks
    · simp [hks]
    · by_cases hk : k' = k
      · simp [hks, hk, assocFind_insert_self]
      · have hk2 : ¬ k ∈ k' :: ks := by
          intro hmem
          rcases List.mem_cons.mp hmem with h | h
          · exact hk h.symm
          · exact hks h
        simp [hks, hk2, assocFind_insert_ne m k k' n hk]

theorem assocFind_insertYamlNode (m : List (String × YAMLNode)) (n : YAMLNode)
    (k : String) :
    assocFind (insertYamlNode m n) k
      = if k ∈ yamlKeys n then some n else assocFind m k :=
  assocFind_foldl_insert (yamlKeys n) m n k

theorem assocFind_foldl_no_key (ns : List YAMLNode)
    (m : List (String × YAMLNode)) (k : String)
    (h : ∀ n ∈ ns, k ∉ yamlKeys n) :
    assocFind (ns.foldl insertYamlNode m) k = assocFind m k := by
  induction ns generalizing m with
  | nil => rfl
  | cons n ns ih =>
    rw [List.foldl_cons, ih _ (fun p hp => h p (List.mem_cons_of_mem n hp)),
      assocFind_insertYamlNode,
      if_neg (h n (List.mem_cons_self n ns))]

theorem assocFind_buildIndexFrom (ns : List YAMLNode) (n : YAMLNode)
    (k : String) :
    ∀ m : List (String × YAMLNode), n ∈ ns → k ∈ yamlKeys n →
      (∀ p ∈ ns, k ∈ yamlKeys p → p = n) →
      assocFind (ns.foldl insertYamlNode m) k = some n := by
  induction ns with
  | nil =>
    intro m hn _ _
    exact absurd hn (List.not_mem_nil n)
  | cons p ns ih =>
    intro m hn hk huniq
    rw [List.foldl_cons]
    by_cases hns : n ∈ ns
    · exact ih _ hns hk (fun q hq hkq => huniq q (List.mem_cons_of_mem p hq) hkq)
    · have hpn : p = n := by
        rcases List.mem_cons.mp hn with hh | hh
        · exact hh.symm
        · exact absurd hh hns
      subst hpn
      have hnone : ∀ q ∈ ns, k ∉ yamlKeys q := by
        intro q hq hkq
        exact hns ((huniq q (List.mem_cons_of_mem p hq) hkq) ▸ hq)
      rw [assocFind_foldl_no_key ns _ k hnone, assocFind_insertYamlNode,
        if_pos hk]

theorem assocFind_buildIndex (ns : List YAMLNode) (n : YAMLNode) (k : String)
    (hn : n ∈ ns) (hk : k ∈ yamlKeys n)
    (huniq : ∀ p ∈ ns, k ∈ yamlKeys p → p = n) :
    assocFind (buildIndex ns) k = some n :=
  assocFind_buildIndexFrom ns n k [] hn hk huniq

/-- C8 counterexample.  Two parsed nodes can collide on an identifier: here
the second node's XName equals the first node's id `"k"`, so the second
node's insertion overwrites the first's, and looking the first node up by
its own id returns the second node instead — not the same logical node. -/
theorem yaml_multikey_collision_counterexample :
    (getNodeByIdentifier
        { index := buildIndex
            [{ ID := "k", XName := "xa", NodeType := "Node", Role := "",
               SubRole := "", State := "", Enabled := true, NID := 7,
               BootMAC := "aa:aa",
               EthernetInterfaces := [{ MACAddress := "bb:bb", IPAddress := "",
                                        Description := "" }] },
             { ID := "k2", XName := "k", NodeType := "Node", Role := "",
               SubRole := "", State := "", Enabled := true, NID := 8,
               BootMAC := "cc:cc", EthernetInterfaces := [] }],
          autoReload := false }
        (Except.ok []) "k").1
      = some
          { ID := "k2", XName := "k", NodeType := "Node", Role := "",
            SubRole := "", State := "", Enabled := true, NID := 8,
            BootMAC := "cc:cc", EthernetInterfaces := [] } ∧
    ({ ID := "k2", XName := "k", NodeType := "Node", Role := "",
       SubRole := "", State := "", Enabled := true, NID := 8,
       BootMAC := "cc:cc", EthernetInterfaces := [] } : YAMLNode)
      ≠ { ID := "k", XName := "xa", NodeType := "Node", Role := "",
          SubRole := "", State := "", Enabled := true, NID := 7,
          BootMAC := "aa:aa",
          EthernetInterfaces := [{ MACAddress := "bb:bb", IPAddress := "",
                                   Description := "" }] } := by
  refine ⟨by decide, by decide⟩

/-- C8 (amended): for a node of the parsed file none of whose index keys is
shared with a different node of the file, lookups through
`GetNodeByIdentifier` by its (non-empty) id, by its (non-empty)
hardware-location name, by its lower-cased (non-empty) boot MAC, by each of
its lower-cased (non-empty) interface MACs, and by its (positive) numeric id
rendered in decimal all return that same logical node. -/
theorem yaml_multikey_lookup (ns : List YAMLNode) (n : YAMLNode)
    (file : Except String (List YAMLNode))
    (hmem : n ∈ ns)
    (huniq : ∀ p ∈ ns, ∀ k, k ∈ yamlKeys n → k ∈ yamlKeys p → p = n) :
    (n.ID ≠ "" →
      (getNodeByIdentifier { index := buildIndex ns, autoReload := false }
        file n.ID).1 = some n) ∧
    (n.XName ≠ "" →
      (getNodeByIdentifier { index := buildIndex ns, autoReload := false }
        file n.XName).1 = some n) ∧
    (n.BootMAC ≠ "" →
      (getNodeByIdentifier { index := buildIndex ns, autoReload := false }
        file (strToLower n.BootMAC)).1 = some n) ∧
    (∀ i ∈ n.EthernetInterfaces, i.MACAddress ≠ "" →
      (getNodeByIdentifier { index := buildIndex ns, autoReload := false }
        file (strToLower i.MACAddress)).1 = some n) ∧
    (0 < n.NID →
      (getNodeByIdentifier { index := buildIndex ns, autoReload := false }
        file (toString n.NID)).1 = some n) := by
  have hlook : ∀ k, k ∈ yamlKeys n →
      (getNodeByIdentifier { index := buildIndex ns, autoReload := false }
        file k).1 = some n := by
    intro k hk
    have hfind := assocFind_buildIndex ns n k hmem hk
      (fun p hp hkp => huniq p hp k hk hkp)
    simp [getNodeByIdentifier, lookupIdentifier, hfind]
  refine ⟨?_, ?_, ?_, ?_, ?_⟩
  · intro h
    exact hlook n.ID (by simp [yamlKeys, h])
  · intro h
    exact hlook n.XName (by simp [yamlKeys, h])
  · intro h
    exact hlook (strToLower n.BootMAC) (by simp [yamlKeys, h])
  · intro i hi h
    refine hlook (strToLower i.MACAddress) ?_
    simp only [yamlKeys, List.mem_append]
    refine Or.inl (Or.inr ?_)
    exact List.mem_filterMap.mpr ⟨i, hi, by simp [h]⟩
  · intro h
    exact hlook (toString n.NID) (by simp [yamlKeys, h])

/-- Witness for the amended C8 theorem on a concrete one-node file: the node
is reachable under all five identifier kinds. -/
theorem yaml_multikey_lookup_witness :
    (getNodeByIdentifier
        { index := buildIndex
            [{ ID := "k1", XName := "xa", NodeType := "Node", Role := "",
               SubRole := "", State := "", Enabled := true, NID := 7,
               BootMAC := "aa:aa",
               EthernetInterfaces := [{ MACAddress := "bb:bb", IPAddress := "",
                                        Description := "" }] }],
          autoReload := false }
        (Except.ok []) "k1").1
      = some
          { ID := "k1", XName := "xa", NodeType := "Node", Role := "",
            SubRole := "", State := "", Enabled := true, NID := 7,
            BootMAC := "aa:aa",
            EthernetInterfaces := [{ MACAddress := "bb:bb", IPAddress := "",
                                     Description := "" }] } ∧
    (getNodeByIdentifier
        { index := buildIndex
            [{ ID := "k1", XName := "xa", NodeType := "Node", Role := "",
               SubRole := "", State := "", Enabled := true, NID := 7,
               BootMAC := "aa:aa",
               EthernetInterfaces := [{ MACAddress := "bb:bb", IPAddress := "",
                                        Description := "" }] }],
          autoReload := false }
        (Except.ok []) "xa").1
      = some
          { ID := "k1", XName := "xa", NodeType := "Node", Role := "",
            SubRole := "", State := "", Enabled := true, NID := 7,
            BootMAC := "aa:aa",
            EthernetInterfaces := [{ MACAddress := "bb:bb", IPAddress := "",
                                     Description := "" }] } ∧
    (getNodeByIdentifier
        { index := buildIndex
            [{ ID := "k1", XName := "xa", NodeType := "Node", Role := "",
               SubRole := "", State := "", Enabled := true, NID := 7,
               BootMAC := "aa:aa",
               EthernetInterfaces := [{ MACAddress := "bb:bb", IPAddress := "",
                                        Description := "" }] }],
          autoReload := false }
        (Except.ok []) (strToLower "aa:aa")).1
      = some
          { ID := "k1", XName := "xa", NodeType := "Node", Role := "",
            SubRole := "", State := "", Enabled := true, NID := 7,
            BootMAC := "aa:aa",
            EthernetInterfaces := [{ MACAddress := "bb:bb", IPAddress := "",
                                     Description := "" }] } ∧
    (getNodeByIdentifier
        { index := buildIndex
            [{ ID := "k1", XName := "xa", NodeType := "Node", Role := "",
               SubRole := "", State := "", Enabled := true, NID := 7,
               BootMAC := "aa:aa",
               EthernetInterfaces := [{ MACAddress := "bb:bb", IPAddress := "",
                                        Description := "" }] }],
          autoReload := false }
        (Except.ok []) (strToLower "bb:bb")).1
      = some
          { ID := "k1", XName := "xa", NodeType := "Node", Role := "",
            SubRole := "", State := "", Enabled := true, NID := 7,
            BootMAC := "aa:aa",
            EthernetInterfaces := [{ MACAddress := "bb:bb", IPAddress := "",
                                     Description := "" }] } ∧
    (getNodeByIdentifier
        { index := buildIndex
            [{ ID := "k1", XName := "xa", NodeType := "Node", Role := "",
               SubRole := "", State := "", Enabled := true, NID := 7,
               BootMAC := "aa:aa",
               EthernetInterfaces := [{ MACAddress := "bb:bb", IPAddress := "",
                                        Description := "" }] }],
          autoReload := false }
        (Except.ok []) (toString (7 : Int))).1
      = some
          { ID := "k1", XName := "xa", NodeType := "Node", Role := "",
            SubRole := "", State := "", Enabled := true, NID := 7,
            BootMAC := "aa:aa",
            EthernetInterfaces := [{ MACAddress := "bb:bb", IPAddress := "",
                                     Description := "" }] } := by
  have h := yaml_multikey_lookup
    [{ ID := "k1", XName := "xa", NodeType := "Node", Role := "",
       SubRole := "", State := "", Enabled := true, NID := 7,
       BootMAC := "aa:aa",
       EthernetInterfaces := [{ MACAddress := "bb:bb", IPAddress := "",
                                Description := "" }] }]
    { ID := "k1", XName := "xa", NodeType := "Node", Role := "",
      SubRole := "", State := "", Enabled := true, NID := 7,
      BootMAC := "aa:aa",
      EthernetInterfaces := [{ MACAddress := "bb:bb", IPAddress := "",
                               Description := "" }] }
    (Except.ok [])
    (List.mem_singleton.mpr rfl)
    (fun p hp _ _ _ => List.mem_singleton.mp hp)
  exact ⟨h.1 (by decide), h.2.1 (by decide), h.2.2.1 (by decide),
    h.2.2.2.1 { MACAddress := "bb:bb", IPAddress := "", Description := "" }
      (List.mem_singleton.mpr rfl) (by decide),
    h.2.2.2.2 (by decide)⟩

/-- C9: when re-parsing the declarative file fails during a lookup, the
in-memory index is left unchanged, the lookup is answered from the last
successfully loaded index, and the answer does not depend on which reload
error occurred — the failure is not surfaced to the caller. -/
theorem yaml_reload_failure_stale_serving (st : YAMLProviderState)
    (e e' : String) (identifier : String) :
    getNodeByIdentifier st (Except.error e) identifier
      = (lookupIdentifier st.index identifier, st) ∧
    (getNodeByIdentifier st (Except.error e) identifier).2.index = st.index ∧
    getNodeByIdentifier st (Except.error e) identifier
      = getNodeByIdentifier st (Except.error e') identifier := by
  by_cases h : st.autoReload <;>
    simp [getNodeByIdentifier, loadNodes, h]

/-! ## Configuration matcher and boot-script generation

The boot-script controller's implementation file is absent from this
repository snapshot (only its package documentation, tests, and cache file
are present), so the matcher and the request entry point below are modelled
from the specification text and checked against it. -/

/-- Modelled from the spec: `BootConfiguration` — target selectors
(hardware-location patterns, MACs, numeric ids, group names), kernel,
initrd, kernel parameters, and the explicit operator-assigned priority.
The implementation file defining this resource is not in the snapshot. -/
structure BootConfigurationSpec where
  Name : String
  MACs : List String
  NIDs : List Int
  XNamePatterns : List String
  Groups : List String
  Kernel : String
  Initrd : String
  Params : String
  Priority : Int
  deriving Repr, DecidableEq

/-- Whether `p` is a head segment of `s`, over character lists (kernel
reducible, unlike the built-in substring test). -/
def listIsHeadOf : List Char → List Char → Bool
  | [], _ => true
  | _ :: _, [] => false
  | a :: as, b :: bs => a == b && listIsHeadOf as bs

/-- Modelled from the spec: selector pattern match, exact or wildcard (a
trailing `*` matches any continuation).  The matcher implementation is not
in the snapshot. -/
def matchesPattern (pattern xname : String) : Bool :=
  if pattern == xname then true
  else
    match pattern.data.reverse with
    | '*' :: restRev => listIsHeadOf restRev.reverse xname.data
    | _ => false

/-- Modelled from the spec: a configuration with no selectors at all is the
default/fallback. -/
def configHasNoSelectors (c : BootConfigurationSpec) : Prop :=
  c.MACs = [] ∧ c.NIDs = [] ∧ c.XNamePatterns = [] ∧ c.Groups = []

instance (c : BootConfigurationSpec) : Decidable (configHasNoSelectors c) := by
  unfold configHasNoSelectors
  infer_instance

/-- Modelled from the spec: additive score of one configuration against a
resolved node — 100 for a boot-MAC hit, 75 for a numeric-id hit, 50 for a
hardware-location selector hit, 25 per shared group, 1 for a selector-less
default, plus the configuration's explicit priority. -/
def configScore (n : Node) (c : BootConfigurationSpec) : Int :=
  (if n.Spec.BootMAC ∈ c.MACs then 100 else 0) +
  (if n.Spec.NID ∈ c.NIDs then 75 else 0) +
  (if ∃ p ∈ c.XNamePatterns, matchesPattern p n.Spec.XName = true then 50 else 0) +
  25 * ((n.Spec.Groups.filter (fun g => g ∈ c.Groups)).length : Int) +
  (if configHasNoSelectors c then 1 else 0) +
  c.Priority

/-- One step of the matcher's scan: adopt the candidate only when its score
is strictly greater than the best so far (so ties keep the earlier one). -/
def selectStep (n : Node) (acc : Option (BootConfigurationSpec × Int))
    (c : BootConfigurationSpec) : Option (BootConfigurationSpec × Int) :=
  match acc with
  | none => some (c, configScore n c)
  | some (b, bs) =>
      if configScore n c > bs then some (c, configScore n c) else some (b, bs)

/-- Modelled from the spec: the matcher scans the configurations in
enumeration order and keeps the highest-scoring one, first-wins on ties. -/
def selectBestConfig (n : Node) (configs : List BootConfigurationSpec) :
    Option (BootConfigurationSpec × Int) :=
  configs.foldl (selectStep n) none

theorem selectStep_foldl_spec (n : Node) (cs : List BootConfigurationSpec) :
    ∀ b : BootConfigurationSpec, ∃ b',
      cs.foldl (selectStep n) (some (b, configScore n b))
        = some (b', configScore n b') ∧
      ((b' = b ∧ ∀ c ∈ cs, configScore n c ≤ configScore n b) ∨
        (∃ pre post, cs = pre ++ b' :: post
          ∧ configScore n b < configScore n b'
          ∧ (∀ c ∈ pre, configScore n c < configScore n b')
          ∧ (∀ c ∈ post, configScore n c ≤ configScore n b'))) := by
  induction cs with
  | nil =>
    intro b
    exact ⟨b, rfl, Or.inl ⟨rfl, by simp⟩⟩
  | cons c cs ih =>
    intro b
    by_cases hgt : configScore n c > configScore n b
    · have hstep : selectStep n (some (b, configScore n b)) c
          = some (c, configScore n c) := by
        simp [selectStep, hgt]
      rw [List.foldl_cons, hstep]
      rcases ih c with ⟨b', heq, hcase⟩
      refine ⟨b', heq, ?_⟩
      rcases hcase with ⟨hb, hall⟩ | ⟨pre, post, hsplit, hlt, hpre, hpost⟩
      · subst hb
        exact Or.inr ⟨[], cs, rfl, hgt, by simp, hall⟩
      · refine Or.inr ⟨c :: pre, post, by simp [hsplit],
          lt_trans hgt hlt, ?_, hpost⟩
        intro q hq
        rcases List.mem_cons.mp hq with h | h
        · exact h ▸ hlt
        · exact hpre q h
    · have hstep : selectStep n (some (b, configScore n b)) c
          = some (b, configScore n b) := by
        simp [selectStep, hgt]
      rw [List.foldl_cons, hstep]
      rcases ih b with ⟨b', heq, hcase⟩
      refine ⟨b', heq, ?_⟩
      rcases hcase with ⟨hb, hall⟩ | ⟨pre, post, hsplit, hlt, hpre, hpost⟩
      · refine Or.inl ⟨hb, ?_⟩
        intro q hq
        rcases List.mem_cons.mp hq with h | h
        · have hle := not_lt.mp hgt
          exact h ▸ hle
        · exact hall q h
      · refine Or.inr ⟨c :: pre, post, by simp [hsplit], hlt, ?_, hpost⟩
        intro q hq
        rcases List.mem_cons.mp hq with h | h
        · exact h ▸ lt_of_le_of_lt (not_lt.mp hgt) hlt
        · exact hpre q h

/-- C2: on any non-empty configuration list the matcher returns a
configuration together with its score; every configuration appearing before
the winner scores strictly less and every one after scores at most the
winner's total — so the winner maximizes the additive
criteria-plus-priority score and an exact tie is resolved to the
configuration appearing first in enumeration order. -/
theorem configMatcher_argmax (n : Node) (configs : List BootConfigurationSpec)
    (c0 : BootConfigurationSpec) (rest : List BootConfigurationSpec)
    (hne : configs = c0 :: rest) :
    ∃ b pre post,
      selectBestConfig n configs = some (b, configScore n b) ∧
      configs = pre ++ b :: post ∧
      (∀ c ∈ pre, configScore n c < configScore n b) ∧
      (∀ c ∈ post, configScore n c ≤ configScore n b) := by
  subst hne
  rcases selectStep_foldl_spec n rest c0 with ⟨b', heq, hcase⟩
  have hsel : selectBestConfig n (c0 :: rest) = some (b', configScore n b') := by
    rw [selectBestConfig, List.foldl_cons]
    exact heq
  rcases hcase with ⟨hb, hall⟩ | ⟨pre, post, hsplit, hlt, hpre, hpost⟩
  · subst hb
    exact ⟨b', [], rest, hsel, rfl, by simp, hall⟩
  · refine ⟨b', c0 :: pre, post, hsel, by simp [hsplit], ?_, hpost⟩
    intro q hq
    rcases List.mem_cons.mp hq with h | h
    · exact h ▸ hlt
    · exact hpre q h

/-- Witness for C2 at the spec's scenario E: against a node carrying MAC
`a4:bf:01:00:00:01`, name `x0c0s0b0n0` and two groups, configuration A (MAC
match, priority 10) scores 110, configuration B (hardware-location match
plus two groups, priority 5) scores 105, and A wins. -/
theorem configMatcher_argmax_witness :
    configScore
        { Spec := { XName := "x0c0s0b0n0", NID := 1,
                    BootMAC := "a4:bf:01:00:00:01", Role := "Compute",
                    SubRole := "", Hostname := "", Groups := ["g1", "g2"] } }
        { Name := "A", MACs := ["a4:bf:01:00:00:01"], NIDs := [],
          XNamePatterns := [], Groups := [], Kernel := "vmlinuz",
          Initrd := "initrd", Params := "console=tty0", Priority := 10 }
      = 110 ∧
    configScore
        { Spec := { XName := "x0c0s0b0n0", NID := 1,
                    BootMAC := "a4:bf:01:00:00:01", Role := "Compute",
                    SubRole := "", Hostname := "", Groups := ["g1", "g2"] } }
        { Name := "B", MACs := [], NIDs := [],
          XNamePatterns := ["x0c0s0b0n0"], Groups := ["g1", "g2"],
          Kernel := "vmlinuz2", Initrd := "initrd2", Params := "",
          Priority := 5 }
      = 105 ∧
    selectBestConfig
        { Spec := { XName := "x0c0s0b0n0", NID := 1,
                    BootMAC := "a4:bf:01:00:00:01", Role := "Compute",
                    SubRole := "", Hostname := "", Groups := ["g1", "g2"] } }
        [{ Name := "A", MACs := ["a4:bf:01:00:00:01"], NIDs := [],
           XNamePatterns := [], Groups := [], Kernel := "vmlinuz",
           Initrd := "initrd", Params := "console=tty0", Priority := 10 },
         { Name := "B", MACs := [], NIDs := [],
           XNamePatterns := ["x0c0s0b0n0"], Groups := ["g1", "g2"],
           Kernel := "vmlinuz2", Initrd := "initrd2", Params := "",
           Priority := 5 }]
      = some
          ({ Name := "A", MACs := ["a4:bf:01:00:00:01"], NIDs := [],
             XNamePatterns := [], Groups := [], Kernel := "vmlinuz",
             Initrd := "initrd", Params := "console=tty0", Priority := 10 },
           110) ∧
    (∃ b pre post,
      selectBestConfig
          { Spec := { XName := "x0c0s0b0n0", NID := 1,
                      BootMAC := "a4:bf:01:00:00:01", Role := "Compute",
                      SubRole := "", Hostname := "", Groups := ["g1", "g2"] } }
          [{ Name := "A", MACs := ["a4:bf:01:00:00:01"], NIDs := [],
             XNamePatterns := [], Groups := [], Kernel := "vmlinuz",
             Initrd := "initrd", Params := "console=tty0", Priority := 10 },
           { Name := "B", MACs := [], NIDs := [],
             XNamePatterns := ["x0c0s0b0n0"], Groups := ["g1", "g2"],
             Kernel := "vmlinuz2", Initrd := "initrd2", Params := "",
             Priority := 5 }]
        = some (b, configScore
            { Spec := { XName := "x0c0s0b0n0", NID := 1,
                        BootMAC := "a4:bf:01:00:00:01", Role := "Compute",
                        SubRole := "", Hostname := "",
                        Groups := ["g1", "g2"] } } b) ∧
      [{ Name := "A", MACs := ["a4:bf:01:00:00:01"], NIDs := [],
         XNamePatterns := [], Groups := [], Kernel := "vmlinuz",
         Initrd := "initrd", Params := "console=tty0", Priority := 10 },
       { Name := "B", MACs := [], NIDs := [],
         XNamePatterns := ["x0c0s0b0n0"], Groups := ["g1", "g2"],
         Kernel := "vmlinuz2", Initrd := "initrd2", Params := "",
         Priority := 5 }]
        = pre ++ b :: post ∧
      (∀ c ∈ pre, configScore
          { Spec := { XName := "x0c0s0b0n0", NID := 1,
                      BootMAC := "a4:bf:01:00:00:01", Role := "Compute",
                      SubRole := "", Hostname := "",
                      Groups := ["g1", "g2"] } } c
        < configScore
            { Spec := { XName := "x0c0s0b0n0", NID := 1,
                        BootMAC := "a4:bf:01:00:00:01", Role := "Compute",
                        SubRole := "", Hostname := "",
                        Groups := ["g1", "g2"] } } b) ∧
      (∀ c ∈ post, configScore
          { Spec := { XName := "x0c0s0b0n0", NID := 1,
                      BootMAC := "a4:bf:01:00:00:01", Role := "Compute",
                      SubRole := "", Hostname := "",
                      Groups := ["g1", "g2"] } } c
        ≤ configScore
            { Spec := { XName := "x0c0s0b0n0", NID := 1,
                        BootMAC := "a4:bf:01:00:00:01", Role := "Compute",
                        SubRole := "", Hostname := "",
                        Groups := ["g1", "g2"] } } b)) :=
  ⟨by decide, by decide, by decide,
   configMatcher_argmax
     { Spec := { XName := "x0c0s0b0n0", NID := 1,
                 BootMAC := "a4:bf:01:00:00:01", Role := "Compute",
                 SubRole := "", Hostname := "", Groups := ["g1", "g2"] } }
     [{ Name := "A", MACs := ["a4:bf:01:00:00:01"], NIDs := [],
        XNamePatterns := [], Groups := [], Kernel := "vmlinuz",
        Initrd := "initrd", Params := "console=tty0", Priority := 10 },
      { Name := "B", MACs := [], NIDs := [],
        XNamePatterns := ["x0c0s0b0n0"], Groups := ["g1", "g2"],
        Kernel := "vmlinuz2", Initrd := "initrd2", Params := "",
        Priority := 5 }]
     { Name := "A", MACs := ["a4:bf:01:00:00:01"], NIDs := [],
       XNamePatterns := [], Groups := [], Kernel := "vmlinuz",
       Initrd := "initrd", Params := "console=tty0", Priority := 10 }
     [{ Name := "B", MACs := [], NIDs := [],
        XNamePatterns := ["x0c0s0b0n0"], Groups := ["g1", "g2"],
        Kernel := "vmlinuz2", Initrd := "initrd2", Params := "",
        Priority := 5 }]
     rfl⟩

/-! ## Boot-script rendering and the request entry point -/

/-- The literal header every template path starts with. -/
def ipxeHeader : String := "#!ipxe"

/-- `extractFilename`: last path segment after the final slash; empty input
or input ending in a slash yields the empty filename. -/
def extractFilename (path : String) : String :=
  String.mk ((path.data.reverse.takeWhile (fun c => c ≠ '/')).reverse)

/-- Whether a rendered script begins with the literal iPXE header. -/
def scriptHasHeader (s : String) : Bool :=
  listIsHeadOf ipxeHeader.data s.data

/-- Modelled from the spec: the full template — bootstrap directive, kernel
fetch with derived filename, initrd fetch, kernel parameter line, final
boot directive.  The template file is not in the snapshot. -/
def renderFullScript (n : Node) (c : BootConfigurationSpec) : String :=
  ipxeHeader ++
    ("\necho Booting node " ++ n.Spec.XName ++
     "\ndhcp\nkernel " ++ c.Kernel ++ " " ++ c.Params ++
     "\ninitrd " ++ c.Initrd ++
     "\nboot " ++ extractFilename c.Kernel ++ "\n")

/-- Modelled from the spec: the minimal template — bootstrap directive plus
a retry/chain directive, no kernel reference. -/
def renderMinimalScript (n : Node) : String :=
  ipxeHeader ++
    ("\necho No boot configuration for node " ++ n.Spec.XName ++
     "\ndhcp\nretry\n")

/-- Modelled from the spec: the error template — a diagnostic comment block
plus the same retry directive, still executable by firmware. -/
def renderErrorScript (identifier : String) : String :=
  ipxeHeader ++
    ("\necho Boot script generation failed for " ++ identifier ++
     "\ndhcp\nretry\n")

/-- The dependencies of one boot-script request. -/
structure ControllerEnv where
  nodes : List Node
  provider : ProviderView
  configs : List BootConfigurationSpec
  cache : ScriptCache

/-- Modelled from the spec: `GenerateBootScript(ctx, identifier)` — reject
an empty identifier, otherwise consult the script cache under
`identifier:default` (a bare request carries no configuration name), then
resolve, match, render the full / minimal / error template, and cache the
rendered text.  The controller implementation file is not in the
snapshot. -/
def generateBootScript (env : ControllerEnv) (now : Int) (identifier : String) :
    Except String String × ScriptCache :=
  if identifier = "" then
    (Except.error "invalid identifier: empty", env.cache)
  else
    let key := generateCacheKey identifier ""
    match scriptCacheGet env.cache key now with
    | (some s, cache') => (Except.ok s, cache')
    | (none, cache') =>
      match resolveNodeByIdentifier env.nodes env.provider identifier with
      | Except.ok n =>
        match selectBestConfig n env.configs with
        | some (cfg, _) =>
          let script := renderFullScript n cfg
          (Except.ok script, scriptCacheSet cache' key script identifier cfg.Name now)
        | none =>
          let script := renderMinimalScript n
          (Except.ok script, scriptCacheSet cache' key script identifier "default" now)
      | Except.error _ =>
        let script := renderErrorScript identifier
        (Except.ok script, scriptCacheSet cache' key script identifier "default" now)

theorem listIsHeadOf_append (l t : List Char) :
    listIsHeadOf l (l ++ t) = true := by
  induction l with
  | nil => rfl
  | cons a as ih => simp [listIsHeadOf, ih]

theorem scriptHasHeader_append (t : String) :
    scriptHasHeader (ipxeHeader ++ t) = true := by
  unfold scriptHasHeader
  rw [String.data_append]
  exact listIsHeadOf_append ipxeHeader.data t.data

theorem assocFind_mem (m : List (String × α)) (k : String) (v : α)
    (h : assocFind m k = some v) : (k, v) ∈ m := by
  induction m with
  | nil => exact absurd h (by simp [assocFind])
  | cons p rest ih =>
    by_cases hp : p.1 = k
    · have hv : p.2 = v := by
        simpa [assocFind, hp] using h
      subst hv
      subst hp
      exact List.mem_cons_self p rest
    · have hh : assocFind rest k = some v := by
        simpa [assocFind, hp] using h
      exact List.mem_cons_of_mem p (ih hh)

theorem scriptCacheGet_some_elim (c : ScriptCache) (k : String) (now : Int)
    (s : String) (c' : ScriptCache)
    (h : scriptCacheGet c k now = (some s, c')) :
    ∃ entry, (k, entry) ∈ c.entries ∧ entry.Script = s := by
  unfold scriptCacheGet at h
  cases hfind : assocFind c.entries k with
  | none =>
    simp only [hfind] at h
    exact absurd (congrArg Prod.fst h) (by simp)
  | some entry =>
    simp only [hfind] at h
    by_cases hexp : now > entry.ExpiresAt
    · rw [if_pos hexp] at h
      exact absurd (congrArg Prod.fst h) (by simp)
    · rw [if_neg hexp] at h
      have hs : entry.Script = s := by
        simpa using congrArg Prod.fst h
      exact ⟨entry, assocFind_mem c.entries k entry hfind, hs⟩

/-- C1: provided every cached script carries the iPXE header (an invariant
of the request path, which only caches rendered templates), a request with
any non-empty identifier answers with a script beginning `#!ipxe` and no
error — in particular when the identifier resolves to no node anywhere —
and an error is returned only for the empty (malformed) identifier. -/
theorem generateBootScript_total (env : ControllerEnv) (now : Int)
    (identifier : String)
    (hcache : ∀ p ∈ env.cache.entries, scriptHasHeader p.2.Script = true) :
    (identifier ≠ "" →
      ∃ s, (generateBootScript env now identifier).1 = Except.ok s ∧
        scriptHasHeader s = true) ∧
    (∀ e, (generateBootScript env now identifier).1 = Except.error e →
      identifier = "") := by
  by_cases hid : identifier = ""
  · constructor
    · intro h
      exact absurd hid h
    · intro e _
      exact hid
  · have hok : ∃ s, (generateBootScript env now identifier).1 = Except.ok s ∧
        scriptHasHeader s = true := by
      unfold generateBootScript
      rw [if_neg hid]
      rcases hget : scriptCacheGet env.cache (generateCacheKey identifier "") now
        with ⟨os, cache'⟩
      cases os with
      | some s =>
        rcases scriptCacheGet_some_elim env.cache
            (generateCacheKey identifier "") now s cache' hget
          with ⟨entry, hmem, hscript⟩
        refine ⟨s, ?_, ?_⟩
        · simp only [hget]
        · rw [← hscript]
          exact hcache _ hmem
      | none =>
        simp only [hget]
        cases hres : resolveNodeByIdentifier env.nodes env.provider identifier with
        | ok n =>
          cases hsel : selectBestConfig n env.configs with
          | some bc =>
            obtain ⟨cfg, sc⟩ := bc
            refine ⟨renderFullScript n cfg, ?_, scriptHasHeader_append _⟩
            simp [hres, hsel]
          | none =>
            refine ⟨renderMinimalScript n, ?_, scriptHasHeader_append _⟩
            simp [hres, hsel]
        | error e =>
          refine ⟨renderErrorScript identifier, ?_, scriptHasHeader_append _⟩
          simp [hres]
    refine ⟨fun _ => hok, ?_⟩
    intro e herr
    rcases hok with ⟨s, hs, _⟩
    rw [hs] at herr
    exact absurd herr (by simp)

/-- Witness for C1 at the spec's scenario B: identifier `x9999c9s9b9n9`,
empty store, empty provider, empty cache — the request still answers with a
`#!ipxe` script and no error. -/
theorem generateBootScript_total_witness :
    ∃ s, (generateBootScript
        { nodes := [],
          provider := { fetchComponent := fun _ => none,
                        interfaces := Except.ok [] },
          configs := [], cache := newScriptCache 300 } 0 "x9999c9s9b9n9").1
      = Except.ok s ∧ scriptHasHeader s = true :=
  (generateBootScript_total
      { nodes := [],
        provider := { fetchComponent := fun _ => none,
                      interfaces := Except.ok [] },
        configs := [], cache := newScriptCache 300 } 0 "x9999c9s9b9n9"
      (fun p hp => absurd hp (List.not_mem_nil p))).1 (by decide)

end BootService
